import Mathlib

/-!
# DeepCpuGruOp: construction of the GRU kernel

A shallow embedding of the constructor of `onnxruntime::DeepCpuGruOp`
(`core/providers/cpu/rnn/deep_cpu_gru.h`) and the properties of the configuration
it accepts.

* C++ `float` is IEEE 754 binary32, embedded by its three bit fields; comparison is the
  IEEE comparison (exact, no rounding is involved anywhere in the constructor).
* C++ `int64_t` and `int` values are `Int`; the conversion `gsl::narrow<int>` is the
  wrap-around cast followed by the round-trip test.
* An exception thrown by the constructor is an `Except.error`, the constructed object an
  `Except.ok`.
* `OpKernelInfo`, `rnn::detail::MakeDirection`, `rnn::detail::ActivationFuncs` and
  `std::thread::hardware_concurrency` are not defined in the header: the constructor is
  embedded over any behaviour of them.
-/

namespace onnxruntime

/-! ## Single-precision values -/

/-- An IEEE 754 binary32 value (C++ `float`): sign bit, 8 exponent bits, 23 fraction bits. -/
structure Float32 where
  sign : Bool
  exponent : Fin 256
  mantissa : Fin 8388608
deriving DecidableEq, Repr

namespace Float32

/-- The value `0.f`. -/
def zero : Float32 := ⟨false, 0, 0⟩

/-- The value `std::numeric_limits<float>::max()`, bit pattern `0x7F7FFFFF`. -/
def max : Float32 := ⟨false, 254, 8388607⟩

/-- A NaN has all exponent bits set and a non-zero fraction. -/
def isNaN (x : Float32) : Bool := x.exponent.val == 255 && x.mantissa.val != 0

/-- Finite values are those whose exponent bits are not all set. -/
def isFinite (x : Float32) : Bool := x.exponent.val != 255

/-- The magnitude of a value in units of `2^(-149)`: subnormals are `m`, normals are
`(2^23 + m) * 2^(e-1)`; the infinities continue the scale at `2^277`. -/
def magnitude (x : Float32) : Nat :=
  if x.exponent.val = 0 then x.mantissa.val
  else (8388608 + x.mantissa.val) * 2 ^ (x.exponent.val - 1)

/-- The signed value of a non-NaN in units of `2^(-149)`; both zeros are `0`. -/
def scaled (x : Float32) : Int :=
  if x.sign then - (x.magnitude : Int) else (x.magnitude : Int)

/-- The IEEE comparison `a < b`: false when either side is a NaN. -/
def lt (a b : Float32) : Bool :=
  !a.isNaN && !b.isNaN && decide (a.scaled < b.scaled)

/-- The IEEE comparison `a > b`. -/
def gt (a b : Float32) : Bool := lt b a

/-- Unary minus flips the sign bit. -/
def neg (x : Float32) : Float32 := ⟨!x.sign, x.exponent, x.mantissa⟩

/-- The C++ `std::min(a, b)`, which is `(b < a) ? b : a`. -/
def fmin (a b : Float32) : Float32 := if lt b a then b else a

/-- The C++ `std::max(a, b)`, which is `(a < b) ? b : a`. -/
def fmax (a b : Float32) : Float32 := if lt a b then b else a

end Float32

/-- Modelled from the spec: the clamp applied to gate pre-activations by the GRU cell step,
whose code is not in the header; the spec gives `clip(v) = max(-c, min(c, v))`. -/
def clip (c v : Float32) : Float32 :=
  Float32.fmax (Float32.neg c) (Float32.fmin c v)

/-! ## Integer conversions -/

/-- The cast `static_cast<int>(u)` of a 64-bit value: two's-complement wrap to 32 bits. -/
def narrow_cast (u : Int) : Int := (u + 2 ^ 31) % 2 ^ 32 - 2 ^ 31

/-- The checked conversion `gsl::narrow<int>(u)`: casts, and throws `narrowing_error`
(here `none`) when casting back does not give `u`. -/
def narrow (u : Int) : Option Int :=
  let t := narrow_cast u
  if t ≠ u then none else some t

/-! ## Collaborators declared outside the header -/

namespace rnn.detail

/-- Modelled from the spec: the enumeration `rnn::detail::Direction` is declared in
`rnn_helpers.h`, which is not among the sources; the header names `kBidirectional`, and the
spec gives the three values Forward, Reverse and Bidirectional. -/
inductive Direction where
  | kForward
  | kReverse
  | kBidirectional
deriving DecidableEq, Repr

/-- Modelled from the spec: `rnn::detail::MakeDirection` is defined in `rnn_helpers.h`,
which is not among the sources. The spec admits `direction ∈ {forward, reverse,
bidirectional}` and makes any other direction string fatal (`none` here). -/
def MakeDirection (direction : String) : Option Direction :=
  if direction = "forward" then some Direction.kForward
  else if direction = "reverse" then some Direction.kReverse
  else if direction = "bidirectional" then some Direction.kBidirectional
  else none

/-- One resolved activation: its name with the optional parameters. -/
structure ActivationFunc where
  name : String
  alpha : Option Float32
  beta : Option Float32
deriving DecidableEq, Repr

/-- Modelled from the spec: the activation-resolution contract
`resolve(name, alpha?, beta?) -> ActivationFunc`, which "fails with an
unrecognized-activation error if name is not in the closed set". The closed set is
left open-ended by the spec, so membership is the argument `recognized`. -/
def resolve (recognized : String → Bool) (name : String) (alpha beta : Option Float32) :
    Option ActivationFunc :=
  if recognized name then some ⟨name, alpha, beta⟩ else none

/-- Modelled from the spec: `rnn::detail::ActivationFuncs` is defined in `rnn_helpers.h`,
which is not among the sources. Every name of the list is resolved, with
the parameter lists "aligned with activations"; one failing name fails the whole. -/
def ActivationFuncs (recognized : String → Bool) :
    List String → List Float32 → List Float32 → Option (List ActivationFunc)
  | [], _, _ => some []
  | name :: names, alphas, betas =>
    match resolve recognized name alphas.head? betas.head? with
    | none => none
    | some f =>
      match ActivationFuncs recognized names alphas.tail betas.tail with
      | none => none
      | some fs => some (f :: fs)

end rnn.detail

open rnn.detail

/-- The attribute lookups of `OpKernelInfo` used by the constructor. The class is declared
in `op_kernel.h`, which is not among the sources, so an attribute set is given by what its
lookups return: each `GetAttr` gives `some v` when the returned status is OK and `none`
otherwise (the attribute is absent). -/
structure OpKernelInfo where
  GetAttrString : String → Option String
  GetAttrInt64 : String → Option Int
  GetAttrFloat : String → Option Float32
  GetAttrsString : String → Option (List String)
  GetAttrsFloat : String → Option (List Float32)

namespace OpKernelInfo

/-- The template `GetAttrOrDefault<float>(name, default_value)`. -/
def GetAttrOrDefaultFloat (info : OpKernelInfo) (name : String) (default_value : Float32) :
    Float32 :=
  match info.GetAttrFloat name with
  | some v => v
  | none => default_value

/-- The template `GetAttrsOrDefault<std::string>(name)`; the default is the empty vector. -/
def GetAttrsOrDefaultString (info : OpKernelInfo) (name : String) : List String :=
  match info.GetAttrsString name with
  | some v => v
  | none => []

/-- The template `GetAttrsOrDefault<float>(name)`; the default is the empty vector. -/
def GetAttrsOrDefaultFloat (info : OpKernelInfo) (name : String) : List Float32 :=
  match info.GetAttrsFloat name with
  | some v => v
  | none => []

end OpKernelInfo

/-- The worker pool `TaskThreadPool`, constructed from its number of workers. -/
structure TaskThreadPool where
  worker_size : Nat
deriving DecidableEq, Repr

/-! ## The kernel and its constructor -/

/-- The exceptions the constructor can leave with, by the statement that throws. -/
inductive Failure where
  /-- Thrown by `ONNXRUNTIME_ENFORCE(info.GetAttr("direction", &direction).IsOK())`. -/
  | direction_attr
  /-- Thrown by `ONNXRUNTIME_ENFORCE(info.GetAttr("linear_before_reset", ...).IsOK())`. -/
  | linear_before_reset_attr
  /-- Thrown by `gsl::narrow<int>(int64_value)` for `linear_before_reset_`. -/
  | linear_before_reset_narrow
  /-- Thrown by `ONNXRUNTIME_ENFORCE(info.GetAttr("hidden_size", ...).IsOK() && int64_value > 0)`. -/
  | hidden_size_attr
  /-- Thrown by `gsl::narrow<int>(int64_value)` for `hidden_size_`. -/
  | hidden_size_narrow
  /-- Thrown by `ONNXRUNTIME_ENFORCE(clip_ > 0.f)`. -/
  | clip_positive
  /-- Thrown inside `rnn::detail::MakeDirection`. -/
  | make_direction
  /-- Thrown by `ONNXRUNTIME_ENFORCE(activation_func_names.size() == num_directions_ * 2)`. -/
  | activation_count
  /-- Thrown inside `rnn::detail::ActivationFuncs`. -/
  | activation_funcs
deriving DecidableEq, Repr

/-- The data members of `DeepCpuGruOp`; `α` is the type `rnn::detail::ActivationFuncs`. -/
structure DeepCpuGruOp (α : Type) where
  direction_ : Direction
  num_directions_ : Int
  hidden_size_ : Int
  clip_ : Float32
  linear_before_reset_ : Int
  activation_funcs_ : α
  ttp_ : TaskThreadPool

/-- The check `ONNXRUNTIME_ENFORCE(condition)`: throws when the condition is false. -/
def ENFORCE (condition : Bool) (f : Failure) : Except Failure Unit :=
  if condition then Except.ok () else Except.error f

/-- The value of a call that either returns or throws `f`. -/
def orThrow {β : Type} (f : Failure) : Option β → Except Failure β
  | some v => Except.ok v
  | none => Except.error f

/-- The loop `for (int i = 0; i < num_directions_; ++i)` of the constructor, by the number
of iterations left: each one appends "sigmoid" and then "tanh". -/
def defaultActivationsLoop : Nat → List String → List String
  | 0, names => names
  | n + 1, names => defaultActivationsLoop n ((names ++ ["sigmoid"]) ++ ["tanh"])

/-- The statement `if (activation_func_names.empty()) { for ... }` of the constructor. -/
def fillDefaultActivations (num_directions_ : Int) (activation_func_names : List String) :
    List String :=
  if activation_func_names.isEmpty then
    defaultActivationsLoop num_directions_.toNat activation_func_names
  else activation_func_names

/-- The comparison `activation_func_names.size() == num_directions_ * 2`, in which the
`int` on the right is converted to `std::size_t`. -/
def activationCountOk (activation_func_names : List String) (num_directions_ : Int) : Bool :=
  decide ((activation_func_names.length : Int) = (num_directions_ * 2) % 2 ^ 64)

/-- The constructor `DeepCpuGruOp::DeepCpuGruOp(const OpKernelInfo& info)`, statement by
statement. -/
def DeepCpuGruOp.construct {α : Type} (MakeDirection : String → Option Direction)
    (ActivationFuncs : List String → List Float32 → List Float32 → Option α)
    (hardware_concurrency : Nat) (info : OpKernelInfo) : Except Failure (DeepCpuGruOp α) := do
  -- default member initializer of ttp_
  let ttp_ : TaskThreadPool := ⟨hardware_concurrency⟩
  -- required attributes
  let direction ← orThrow Failure.direction_attr (info.GetAttrString "direction")
  let int64_value ← orThrow Failure.linear_before_reset_attr
    (info.GetAttrInt64 "linear_before_reset")
  let linear_before_reset_ ← orThrow Failure.linear_before_reset_narrow (narrow int64_value)
  let int64_value ← orThrow Failure.hidden_size_attr (info.GetAttrInt64 "hidden_size")
  ENFORCE (decide (int64_value > 0)) Failure.hidden_size_attr
  let hidden_size_ ← orThrow Failure.hidden_size_narrow (narrow int64_value)
  -- optional attributes
  let activation_func_names := info.GetAttrsOrDefaultString "activations"
  let activation_func_alphas := info.GetAttrsOrDefaultFloat "activation_alpha"
  let activation_func_betas := info.GetAttrsOrDefaultFloat "activation_beta"
  let clip_ := info.GetAttrOrDefaultFloat "clip" Float32.max
  ENFORCE (Float32.gt clip_ Float32.zero) Failure.clip_positive
  let direction_ ← orThrow Failure.make_direction (MakeDirection direction)
  let num_directions_ : Int := if direction_ = Direction.kBidirectional then 2 else 1
  let activation_func_names := fillDefaultActivations num_directions_ activation_func_names
  ENFORCE (activationCountOk activation_func_names num_directions_) Failure.activation_count
  let activation_funcs_ ← orThrow Failure.activation_funcs
    (ActivationFuncs activation_func_names activation_func_alphas activation_func_betas)
  return ⟨direction_, num_directions_, hidden_size_, clip_, linear_before_reset_,
    activation_funcs_, ttp_⟩

/-! ## Concrete attribute sets -/

/-- An attribute set given by its six GRU attributes; every other lookup fails. -/
def mkInfo (direction : Option String) (linear_before_reset hidden_size : Option Int)
    (activations : Option (List String)) (activation_alpha activation_beta : Option (List Float32))
    (clip : Option Float32) : OpKernelInfo where
  GetAttrString := fun name => if name = "direction" then direction else none
  GetAttrInt64 := fun name =>
    if name = "linear_before_reset" then linear_before_reset
    else if name = "hidden_size" then hidden_size else none
  GetAttrFloat := fun name => if name = "clip" then clip else none
  GetAttrsString := fun name => if name = "activations" then activations else none
  GetAttrsFloat := fun name =>
    if name = "activation_alpha" then activation_alpha
    else if name = "activation_beta" then activation_beta else none

/-- Modelled from the spec: the activation kinds the spec lists for its closed set
(sigmoid, tanh, relu, affine, leaky-relu, clipped-relu, hard-sigmoid, elu, softsign,
softplus); only used to run the constructor on concrete attribute sets. -/
def listedActivations (name : String) : Bool :=
  name ∈ ["sigmoid", "tanh", "relu", "affine", "leaky-relu", "clipped-relu", "hard-sigmoid",
    "elu", "softsign", "softplus"]

/-- The constructor run with `MakeDirection` and `ActivationFuncs` as they are modelled here,
for concrete attribute sets. -/
def constructSpec (hardware_concurrency : Nat) (info : OpKernelInfo) :
    Except Failure (DeepCpuGruOp (List ActivationFunc)) :=
  DeepCpuGruOp.construct MakeDirection (ActivationFuncs listedActivations)
    hardware_concurrency info

/-- A forward attribute set with only the required attributes. -/
def forwardInfo : OpKernelInfo :=
  mkInfo (some "forward") (some 0) (some 3) none none none none

/-- The kernel constructed from `forwardInfo` on a machine reporting 4 hardware threads. -/
def forwardKernel : DeepCpuGruOp (List ActivationFunc) :=
  ⟨Direction.kForward, 1, 3, Float32.max, 0,
    [⟨"sigmoid", none, none⟩, ⟨"tanh", none, none⟩], ⟨4⟩⟩

/-- A bidirectional attribute set with four explicit activations and a clip of `1.0f`. -/
def bidirectionalInfo : OpKernelInfo :=
  mkInfo (some "bidirectional") (some 1) (some 8) (some ["sigmoid", "tanh", "relu", "tanh"])
    none none (some ⟨false, 127, 0⟩)

/-- The kernel constructed from `bidirectionalInfo`. -/
def bidirectionalKernel : DeepCpuGruOp (List ActivationFunc) :=
  ⟨Direction.kBidirectional, 2, 8, ⟨false, 127, 0⟩, 1,
    [⟨"sigmoid", none, none⟩, ⟨"tanh", none, none⟩, ⟨"relu", none, none⟩,
      ⟨"tanh", none, none⟩], ⟨4⟩⟩

/-- The attribute set `info` with the value of linear_before_reset replaced by `v`. -/
def withLinearBeforeReset (info : OpKernelInfo) (v : Int) : OpKernelInfo :=
  { info with
    GetAttrInt64 := fun name =>
      if name = "linear_before_reset" then some v else info.GetAttrInt64 name }

/-- A bidirectional attribute set whose activations attribute is the empty list. -/
def bidirectionalDefaultInfo : OpKernelInfo :=
  mkInfo (some "bidirectional") (some 0) (some 3) (some []) none none none

/-- The kernel constructed from `bidirectionalDefaultInfo`. -/
def bidirectionalDefaultKernel : DeepCpuGruOp (List ActivationFunc) :=
  ⟨Direction.kBidirectional, 2, 3, Float32.max, 0,
    [⟨"sigmoid", none, none⟩, ⟨"tanh", none, none⟩, ⟨"sigmoid", none, none⟩,
      ⟨"tanh", none, none⟩], ⟨4⟩⟩

/-- The attribute set `info` with the activations attribute supplied as `names`. -/
def withActivations (info : OpKernelInfo) (names : List String) : OpKernelInfo :=
  { info with
    GetAttrsString := fun name =>
      if name = "activations" then some names else info.GetAttrsString name }

/-! ## Auxiliary facts -/

theorem narrow_eq_some (u t : Int) :
    narrow u = some t ↔ t = u ∧ -2147483648 ≤ u ∧ u < 2147483648 := by
  unfold narrow narrow_cast
  constructor
  · intro h
    simp only [ne_eq, ite_not] at h
    split at h
    · rename_i h1
      simp only [Option.some.injEq] at h
      omega
    · exact absurd h (by simp)
  · rintro ⟨rfl, h1, h2⟩
    simp only [ne_eq, ite_not]
    rw [if_pos (by omega)]
    congr 1
    omega

theorem narrow_eq_none (u : Int) :
    narrow u = none ↔ (u < -2147483648 ∨ 2147483648 ≤ u) := by
  unfold narrow narrow_cast
  simp only [ne_eq, ite_not]
  constructor
  · intro h
    split at h
    · exact absurd h (by simp)
    · omega
  · intro h
    rw [if_neg (by omega)]

theorem orThrow_ok {β : Type} (f : Failure) (o : Option β) (v : β) :
    orThrow f o = Except.ok v ↔ o = some v := by
  cases o <;> simp [orThrow]

theorem ENFORCE_ok (c : Bool) (f : Failure) (u : Unit) :
    ENFORCE c f = Except.ok u ↔ c = true := by
  cases c <;> simp [ENFORCE]

theorem bind_ok {β γ : Type} (x : Except Failure β) (g : β → Except Failure γ) (c : γ) :
    (x >>= g) = Except.ok c ↔ ∃ b, x = Except.ok b ∧ g b = Except.ok c := by
  cases x <;> simp [bind, Except.bind]

theorem construct_ok_inv {α : Type} (MakeDirection : String → Option Direction)
    (ActivationFuncs : List String → List Float32 → List Float32 → Option α)
    (hardware_concurrency : Nat) (info : OpKernelInfo) (k : DeepCpuGruOp α)
    (h : DeepCpuGruOp.construct MakeDirection ActivationFuncs hardware_concurrency info
      = Except.ok k) :
    ∃ direction lbr hs,
      info.GetAttrString "direction" = some direction ∧
      info.GetAttrInt64 "linear_before_reset" = some lbr ∧
      narrow lbr = some k.linear_before_reset_ ∧
      info.GetAttrInt64 "hidden_size" = some hs ∧
      0 < hs ∧
      narrow hs = some k.hidden_size_ ∧
      k.clip_ = info.GetAttrOrDefaultFloat "clip" Float32.max ∧
      Float32.gt k.clip_ Float32.zero = true ∧
      MakeDirection direction = some k.direction_ ∧
      k.num_directions_ = (if k.direction_ = Direction.kBidirectional then 2 else 1) ∧
      activationCountOk (fillDefaultActivations k.num_directions_
        (info.GetAttrsOrDefaultString "activations")) k.num_directions_ = true ∧
      ActivationFuncs (fillDefaultActivations k.num_directions_
        (info.GetAttrsOrDefaultString "activations"))
        (info.GetAttrsOrDefaultFloat "activation_alpha")
        (info.GetAttrsOrDefaultFloat "activation_beta") = some k.activation_funcs_ ∧
      k.ttp_ = ⟨hardware_concurrency⟩ := by
  unfold DeepCpuGruOp.construct at h
  simp only [bind_ok, orThrow_ok, ENFORCE_ok, decide_eq_true_eq] at h
  obtain ⟨d, hd, lbr, hlbr, l, hl, hs, hhs, _, hpos, h', hh', _, hclip, dir, hdir, _, hcnt, fs, hfs, hk⟩ := h
  simp only [pure, Except.pure, Except.ok.injEq] at hk
  subst hk
  exact ⟨d, lbr, hs, hd, hlbr, hl, hhs, hpos, hh', rfl, hclip, hdir, rfl, hcnt, hfs, rfl⟩

namespace Float32

theorem magnitude_max : Float32.max.magnitude = 16777215 * 2 ^ 253 := by
  rfl

theorem scaled_max : Float32.max.scaled = ((16777215 * 2 ^ 253 : Nat) : Int) := by
  rfl

theorem scaled_neg_max : (Float32.neg Float32.max).scaled = - ((16777215 * 2 ^ 253 : Nat) : Int) := by
  rfl

theorem isNaN_of_isFinite (v : Float32) (h : v.isFinite = true) : v.isNaN = false := by
  unfold isFinite at h
  unfold isNaN
  simp only [bne_iff_ne, ne_eq] at h
  simp [h]

theorem magnitude_le_max (v : Float32) (h : v.isFinite = true) :
    v.magnitude ≤ 16777215 * 2 ^ 253 := by
  unfold isFinite at h
  simp only [bne_iff_ne, ne_eq] at h
  have he : v.exponent.val < 256 := v.exponent.isLt
  have hm : v.mantissa.val < 8388608 := v.mantissa.isLt
  unfold magnitude
  split
  · have : (8388608 : Nat) ≤ 16777215 * 2 ^ 253 := by norm_num
    omega
  · have h1 : 2 ^ (v.exponent.val - 1) ≤ 2 ^ 253 :=
      Nat.pow_le_pow_right (by norm_num) (by omega)
    exact Nat.mul_le_mul (by omega) h1

theorem eq_of_magnitude_max (v : Float32) (h : v.isFinite = true)
    (hmag : 16777215 * 2 ^ 253 ≤ v.magnitude) :
    v.exponent = 254 ∧ v.mantissa = 8388607 := by
  unfold isFinite at h
  simp only [bne_iff_ne, ne_eq] at h
  have he : v.exponent.val < 256 := v.exponent.isLt
  have hm : v.mantissa.val < 8388608 := v.mantissa.isLt
  unfold magnitude at hmag
  split at hmag
  · have : (8388608 : Nat) ≤ 16777215 * 2 ^ 253 := by norm_num
    omega
  · by_cases h254 : v.exponent.val = 254
    · rw [h254] at hmag
      have h2 : (16777215 : Nat) ≤ 8388608 + v.mantissa.val :=
        Nat.le_of_mul_le_mul_right hmag (by positivity)
      refine ⟨Fin.ext h254, Fin.ext ?_⟩
      show v.mantissa.val = 8388607
      omega
    · have h1 : 2 ^ (v.exponent.val - 1) ≤ 2 ^ 252 :=
        Nat.pow_le_pow_right (by norm_num) (by omega)
      have h3 : (8388608 + v.mantissa.val) * 2 ^ (v.exponent.val - 1) ≤ 16777215 * 2 ^ 252 :=
        Nat.mul_le_mul (by omega) h1
      have h4 : 16777215 * 2 ^ 252 < 16777215 * 2 ^ 253 := by norm_num
      omega

end Float32

theorem clip_max_eq (v : Float32) (h : v.isFinite = true) : clip Float32.max v = v := by
  have hnan := Float32.isNaN_of_isFinite v h
  have hle := Float32.magnitude_le_max v h
  have hmaxnan : Float32.max.isNaN = false := by rfl
  have hnegnan : (Float32.neg Float32.max).isNaN = false := by rfl
  have hmin : Float32.fmin Float32.max v = v := by
    unfold Float32.fmin Float32.lt
    rw [hnan, hmaxnan, Float32.scaled_max]
    simp only [Bool.not_false, Bool.true_and, decide_eq_true_eq]
    split
    · rfl
    · rename_i hlt
      have hs : ((16777215 * 2 ^ 253 : Nat) : Int) ≤ v.scaled := by omega
      unfold Float32.scaled at hs
      cases hsign : v.sign
      · rw [hsign] at hs
        simp only [Bool.false_eq_true, if_false] at hs
        have := Float32.eq_of_magnitude_max v h (by exact_mod_cast hs)
        cases v
        simp_all [Float32.max]
      · rw [hsign] at hs
        simp only [if_true] at hs
        have hpos : (0 : Int) < ((16777215 * 2 ^ 253 : Nat) : Int) := by norm_num
        omega
  unfold clip
  rw [hmin]
  unfold Float32.fmax Float32.lt
  rw [hnan, hnegnan, Float32.scaled_neg_max]
  simp only [Bool.not_false, Bool.true_and, decide_eq_true_eq]
  split
  · rfl
  · rename_i hlt
    have hs : v.scaled ≤ - ((16777215 * 2 ^ 253 : Nat) : Int) := by omega
    unfold Float32.scaled at hs
    cases hsign : v.sign
    · rw [hsign] at hs
      simp only [Bool.false_eq_true, if_false] at hs
      have hpos : (0 : Int) < ((16777215 * 2 ^ 253 : Nat) : Int) := by norm_num
      omega
    · rw [hsign] at hs
      simp only [if_true] at hs
      have := Float32.eq_of_magnitude_max v h (by omega)
      cases v
      simp_all [Float32.max, Float32.neg]

theorem fails_of_not_ok {β : Type} (x : Except Failure β) (h : ∀ k, x ≠ Except.ok k) :
    ∃ f, x = Except.error f := by
  cases x with
  | error f => exact ⟨f, rfl⟩
  | ok k => exact absurd rfl (h k)

theorem fillDefaultActivations_of_ne_nil (n : Int) (names : List String) (h : names ≠ []) :
    fillDefaultActivations n names = names := by
  unfold fillDefaultActivations
  cases names with
  | nil => exact absurd rfl h
  | cons a l => rfl

theorem GetAttrsOrDefaultString_of_some (info : OpKernelInfo) (name : String)
    (names : List String) (h : info.GetAttrsString name = some names) :
    info.GetAttrsOrDefaultString name = names := by
  unfold OpKernelInfo.GetAttrsOrDefaultString
  rw [h]

theorem activationCountOk_iff (names : List String) (n : Int) (hn : n = 1 ∨ n = 2) :
    activationCountOk names n = true ↔ (names.length : Int) = 2 * n := by
  unfold activationCountOk
  rw [decide_eq_true_eq]
  rcases hn with rfl | rfl <;> omega

theorem num_directions_cases (d : Direction) :
    (if d = Direction.kBidirectional then (2 : Int) else 1) = 1 ∨
    (if d = Direction.kBidirectional then (2 : Int) else 1) = 2 := by
  cases d <;> simp

theorem construct_ok_of {α : Type} (MakeDirection : String → Option Direction)
    (ActivationFuncs : List String → List Float32 → List Float32 → Option α)
    (hardware_concurrency : Nat) (info : OpKernelInfo)
    (direction : String) (lbr hs : Int) (dir : Direction) (fs : α)
    (hd : info.GetAttrString "direction" = some direction)
    (hlbr : info.GetAttrInt64 "linear_before_reset" = some lbr)
    (hlbr1 : -2147483648 ≤ lbr) (hlbr2 : lbr < 2147483648)
    (hhs : info.GetAttrInt64 "hidden_size" = some hs)
    (hpos : 0 < hs) (hhs2 : hs < 2147483648)
    (hclip : Float32.gt (info.GetAttrOrDefaultFloat "clip" Float32.max) Float32.zero = true)
    (hmd : MakeDirection direction = some dir)
    (hcnt : activationCountOk (fillDefaultActivations
      (if dir = Direction.kBidirectional then 2 else 1)
      (info.GetAttrsOrDefaultString "activations"))
      (if dir = Direction.kBidirectional then 2 else 1) = true)
    (hfs : ActivationFuncs (fillDefaultActivations
      (if dir = Direction.kBidirectional then 2 else 1)
      (info.GetAttrsOrDefaultString "activations"))
      (info.GetAttrsOrDefaultFloat "activation_alpha")
      (info.GetAttrsOrDefaultFloat "activation_beta") = some fs) :
    DeepCpuGruOp.construct MakeDirection ActivationFuncs hardware_concurrency info
      = Except.ok ⟨dir, if dir = Direction.kBidirectional then 2 else 1, hs,
          info.GetAttrOrDefaultFloat "clip" Float32.max, lbr, fs, ⟨hardware_concurrency⟩⟩ := by
  have h1 : narrow lbr = some lbr := (narrow_eq_some lbr lbr).2 ⟨rfl, hlbr1, hlbr2⟩
  have h2 : narrow hs = some hs := (narrow_eq_some hs hs).2 ⟨rfl, by omega, hhs2⟩
  unfold DeepCpuGruOp.construct
  simp only [hd, hlbr, hhs, h1, h2, hclip, hmd, hcnt, hfs, orThrow, ENFORCE, bind, Except.bind,
    hpos, decide_True, if_true, pure, Except.pure]

theorem bind_error {β γ : Type} (x : Except Failure β) (g : β → Except Failure γ)
    (f : Failure) :
    (x >>= g) = Except.error f ↔ x = Except.error f ∨ ∃ b, x = Except.ok b ∧ g b = Except.error f := by
  cases x <;> simp [bind, Except.bind]

theorem orThrow_error {β : Type} (f g : Failure) (o : Option β) :
    orThrow f o = Except.error g ↔ o = none ∧ f = g := by
  cases o <;> simp [orThrow]

theorem ENFORCE_error (c : Bool) (f g : Failure) :
    ENFORCE c f = Except.error g ↔ c = false ∧ f = g := by
  cases c <;> simp [ENFORCE]

theorem gt_zero_iff (c : Float32) :
    Float32.gt c Float32.zero = true ↔ c.isNaN = false ∧ 0 < c.scaled := by
  unfold Float32.gt Float32.lt
  have h1 : Float32.zero.isNaN = false := rfl
  have h2 : Float32.zero.scaled = 0 := rfl
  rw [h1, h2]
  cases c.isNaN <;> simp

theorem GetAttrOrDefaultFloat_of_some (info : OpKernelInfo) (name : String) (d c : Float32)
    (h : info.GetAttrFloat name = some c) : info.GetAttrOrDefaultFloat name d = c := by
  unfold OpKernelInfo.GetAttrOrDefaultFloat
  rw [h]

theorem GetAttrOrDefaultFloat_of_none (info : OpKernelInfo) (name : String) (d : Float32)
    (h : info.GetAttrFloat name = none) : info.GetAttrOrDefaultFloat name d = d := by
  unfold OpKernelInfo.GetAttrOrDefaultFloat
  rw [h]

theorem MakeDirection_eq_none (direction : String) (h1 : direction ≠ "forward")
    (h2 : direction ≠ "reverse") (h3 : direction ≠ "bidirectional") :
    MakeDirection direction = none := by
  unfold MakeDirection
  rw [if_neg h1, if_neg h2, if_neg h3]

theorem ActivationFuncs_eq_none (recognized : String → Bool) (names : List String)
    (h : ∃ n ∈ names, recognized n = false) (alphas betas : List Float32) :
    ActivationFuncs recognized names alphas betas = none := by
  induction names generalizing alphas betas with
  | nil =>
    obtain ⟨n, hn, -⟩ := h
    exact absurd hn (List.not_mem_nil n)
  | cons a l ih =>
    unfold ActivationFuncs
    by_cases ha : recognized a = true
    · have hl : ∃ n ∈ l, recognized n = false := by
        obtain ⟨n, hn, hr⟩ := h
        rcases List.mem_cons.1 hn with rfl | hmem
        · rw [ha] at hr
          exact absurd hr (by decide)
        · exact ⟨n, hmem, hr⟩
      rw [ih hl alphas.tail betas.tail]
      simp only [resolve, ha, if_true]
    · simp only [resolve, ha, Bool.false_eq_true, if_false]

theorem GetAttrsOrDefaultString_of_omitted (info : OpKernelInfo) (name : String)
    (h : info.GetAttrsString name = none ∨ info.GetAttrsString name = some []) :
    info.GetAttrsOrDefaultString name = [] := by
  unfold OpKernelInfo.GetAttrsOrDefaultString
  rcases h with h | h <;> rw [h]

theorem GetAttrsOrDefaultString_withActivations (info : OpKernelInfo) (names : List String) :
    (withActivations info names).GetAttrsOrDefaultString "activations" = names := by
  simp [OpKernelInfo.GetAttrsOrDefaultString, withActivations]

theorem fillDefaultActivations_nil (dir : Direction) :
    fillDefaultActivations (if dir = Direction.kBidirectional then 2 else 1) []
      = if dir = Direction.kBidirectional then ["sigmoid", "tanh", "sigmoid", "tanh"]
        else ["sigmoid", "tanh"] := by
  cases dir <;> rfl

theorem activationCountOk_default (dir : Direction) :
    activationCountOk
      (fillDefaultActivations (if dir = Direction.kBidirectional then 2 else 1) [])
      (if dir = Direction.kBidirectional then 2 else 1) = true := by
  cases dir <;> rfl

/-! ## The claims -/

/-- C1: construction succeeds only if the activation-name list it ends with has length
exactly 2 × num_directions; a supplied non-empty list is used as it is (no pair is
broadcast or truncated), so a non-empty list of any other length makes construction
fail. -/
theorem C1_activation_list_length {α : Type} (MakeDirection : String → Option Direction)
    (ActivationFuncs : List String → List Float32 → List Float32 → Option α)
    (hardware_concurrency : Nat) (info : OpKernelInfo) :
    (∀ k, DeepCpuGruOp.construct MakeDirection ActivationFuncs hardware_concurrency info
        = Except.ok k →
      ((fillDefaultActivations k.num_directions_
          (info.GetAttrsOrDefaultString "activations")).length : Int) = 2 * k.num_directions_ ∧
      ∀ names, info.GetAttrsString "activations" = some names → names ≠ [] →
        fillDefaultActivations k.num_directions_
          (info.GetAttrsOrDefaultString "activations") = names ∧
        (names.length : Int) = 2 * k.num_directions_) ∧
    (∀ names direction dir, info.GetAttrsString "activations" = some names → names ≠ [] →
      info.GetAttrString "direction" = some direction →
      MakeDirection direction = some dir →
      (names.length : Int) ≠ 2 * (if dir = Direction.kBidirectional then 2 else 1) →
      ∃ f, DeepCpuGruOp.construct MakeDirection ActivationFuncs hardware_concurrency info
        = Except.error f) := by
  have key : ∀ k, DeepCpuGruOp.construct MakeDirection ActivationFuncs hardware_concurrency info
        = Except.ok k →
      ((fillDefaultActivations k.num_directions_
          (info.GetAttrsOrDefaultString "activations")).length : Int) = 2 * k.num_directions_ := by
    intro k hk
    obtain ⟨d, lbr, hs, -, -, -, -, -, -, -, -, -, hnd, hcnt, -, -⟩ :=
      construct_ok_inv MakeDirection ActivationFuncs hardware_concurrency info k hk
    have hcases : k.num_directions_ = 1 ∨ k.num_directions_ = 2 := by
      rw [hnd]
      exact num_directions_cases k.direction_
    exact (activationCountOk_iff _ _ hcases).1 hcnt
  refine ⟨fun k hk => ⟨key k hk, fun names hnames hne => ?_⟩, ?_⟩
  · have hfill : fillDefaultActivations k.num_directions_
        (info.GetAttrsOrDefaultString "activations") = names := by
      rw [GetAttrsOrDefaultString_of_some info _ names hnames]
      exact fillDefaultActivations_of_ne_nil _ names hne
    refine ⟨hfill, ?_⟩
    have := key k hk
    rw [hfill] at this
    exact this
  · intro names direction dir hnames hne hdir hmk hlen
    apply fails_of_not_ok
    intro k hk
    have hlen2 := key k hk
    obtain ⟨d, lbr, hs, hd, -, -, -, -, -, -, -, hmd, hnd, -, -, -⟩ :=
      construct_ok_inv MakeDirection ActivationFuncs hardware_concurrency info k hk
    rw [hdir] at hd
    cases hd
    rw [hmk] at hmd
    cases hmd
    rw [GetAttrsOrDefaultString_of_some info _ names hnames,
      fillDefaultActivations_of_ne_nil _ names hne, hnd] at hlen2
    exact hlen hlen2

/-- C1 at concrete attribute sets: four names for a forward kernel and two names for a
bidirectional kernel make construction fail. -/
theorem C1_activation_list_length_witness :
    (∃ f, constructSpec 4 (mkInfo (some "forward") (some 0) (some 3)
      (some ["sigmoid", "tanh", "sigmoid", "tanh"]) none none none) = Except.error f) ∧
    (∃ f, constructSpec 4 (mkInfo (some "bidirectional") (some 0) (some 3)
      (some ["sigmoid", "tanh"]) none none none) = Except.error f) :=
  ⟨(C1_activation_list_length MakeDirection (ActivationFuncs listedActivations) 4
      (mkInfo (some "forward") (some 0) (some 3)
        (some ["sigmoid", "tanh", "sigmoid", "tanh"]) none none none)).2
      ["sigmoid", "tanh", "sigmoid", "tanh"] "forward" Direction.kForward rfl (by decide) rfl
      rfl (by decide),
   (C1_activation_list_length MakeDirection (ActivationFuncs listedActivations) 4
      (mkInfo (some "bidirectional") (some 0) (some 3)
        (some ["sigmoid", "tanh"]) none none none)).2
      ["sigmoid", "tanh"] "bidirectional" Direction.kBidirectional rfl (by decide) rfl rfl
      (by decide)⟩

/-- C2: in every constructed kernel, num_directions_ is 2 exactly when the direction
resolved from the attribute is Bidirectional, and is 1 otherwise. -/
theorem C2_num_directions {α : Type} (MakeDirection : String → Option Direction)
    (ActivationFuncs : List String → List Float32 → List Float32 → Option α)
    (hardware_concurrency : Nat) (info : OpKernelInfo) (k : DeepCpuGruOp α)
    (h : DeepCpuGruOp.construct MakeDirection ActivationFuncs hardware_concurrency info
      = Except.ok k) :
    (∃ direction, info.GetAttrString "direction" = some direction ∧
      MakeDirection direction = some k.direction_) ∧
    (k.num_directions_ = 2 ↔ k.direction_ = Direction.kBidirectional) ∧
    (k.direction_ ≠ Direction.kBidirectional → k.num_directions_ = 1) ∧
    (k.num_directions_ = 1 ∨ k.num_directions_ = 2) := by
  obtain ⟨d, lbr, hs, hd, -, -, -, -, -, -, -, hmd, hnd, -, -, -⟩ :=
    construct_ok_inv MakeDirection ActivationFuncs hardware_concurrency info k h
  refine ⟨⟨d, hd, hmd⟩, ?_, ?_, ?_⟩
  · rw [hnd]
    by_cases hb : k.direction_ = Direction.kBidirectional <;> simp [hb]
  · intro hb
    rw [hnd, if_neg hb]
  · rw [hnd]
    exact num_directions_cases k.direction_

/-- C2 at a bidirectional and at a forward attribute set. -/
theorem C2_num_directions_witness :
    constructSpec 4 bidirectionalInfo = Except.ok bidirectionalKernel ∧
    (bidirectionalKernel.num_directions_ = 2 ↔
      bidirectionalKernel.direction_ = Direction.kBidirectional) ∧
    constructSpec 4 forwardInfo = Except.ok forwardKernel ∧
    forwardKernel.num_directions_ = 1 :=
  ⟨rfl,
   (C2_num_directions MakeDirection (ActivationFuncs listedActivations) 4 bidirectionalInfo
      bidirectionalKernel rfl).2.1,
   rfl,
   (C2_num_directions MakeDirection (ActivationFuncs listedActivations) 4 forwardInfo
      forwardKernel rfl).2.2.1 (by decide)⟩

/-- C3: a hidden_size attribute that is zero or negative makes construction fail, and
every constructed kernel stores a strictly positive hidden_size_. -/
theorem C3_hidden_size_positive {α : Type} (MakeDirection : String → Option Direction)
    (ActivationFuncs : List String → List Float32 → List Float32 → Option α)
    (hardware_concurrency : Nat) (info : OpKernelInfo) :
    (∀ v, info.GetAttrInt64 "hidden_size" = some v → v ≤ 0 →
      ∃ f, DeepCpuGruOp.construct MakeDirection ActivationFuncs hardware_concurrency info
        = Except.error f) ∧
    (∀ k, DeepCpuGruOp.construct MakeDirection ActivationFuncs hardware_concurrency info
        = Except.ok k → 0 < k.hidden_size_) := by
  constructor
  · intro v hv hle
    apply fails_of_not_ok
    intro k hk
    obtain ⟨d, lbr, hs, -, -, -, hhs, hpos, -, -, -, -, -, -, -, -⟩ :=
      construct_ok_inv MakeDirection ActivationFuncs hardware_concurrency info k hk
    rw [hv] at hhs
    cases hhs
    omega
  · intro k hk
    obtain ⟨d, lbr, hs, -, -, -, -, hpos, hnar, -, -, -, -, -, -, -⟩ :=
      construct_ok_inv MakeDirection ActivationFuncs hardware_concurrency info k hk
    have := (narrow_eq_some hs k.hidden_size_).1 hnar
    omega

/-- C3 at concrete attribute sets: hidden_size = 0 fails, and the forward kernel holds 3. -/
theorem C3_hidden_size_positive_witness :
    (∃ f, constructSpec 4 (mkInfo (some "forward") (some 0) (some 0) none none none none)
      = Except.error f) ∧ 0 < forwardKernel.hidden_size_ :=
  ⟨(C3_hidden_size_positive MakeDirection (ActivationFuncs listedActivations) 4
      (mkInfo (some "forward") (some 0) (some 0) none none none none)).1 0 rfl (by decide),
   (C3_hidden_size_positive MakeDirection (ActivationFuncs listedActivations) 4
      forwardInfo).2 forwardKernel rfl⟩

/-- C4: a supplied clip that is zero or negative makes construction fail, and every
constructed kernel stores a clip_ strictly greater than 0 (in particular not a NaN). -/
theorem C4_clip_positive {α : Type} (MakeDirection : String → Option Direction)
    (ActivationFuncs : List String → List Float32 → List Float32 → Option α)
    (hardware_concurrency : Nat) (info : OpKernelInfo) :
    (∀ c, info.GetAttrFloat "clip" = some c → c.scaled ≤ 0 →
      ∃ f, DeepCpuGruOp.construct MakeDirection ActivationFuncs hardware_concurrency info
        = Except.error f) ∧
    (∀ k, DeepCpuGruOp.construct MakeDirection ActivationFuncs hardware_concurrency info
        = Except.ok k →
      Float32.gt k.clip_ Float32.zero = true ∧ k.clip_.isNaN = false ∧ 0 < k.clip_.scaled) := by
  constructor
  · intro c hc hle
    apply fails_of_not_ok
    intro k hk
    obtain ⟨d, lbr, hs, -, -, -, -, -, -, hclip, hgt, -, -, -, -, -⟩ :=
      construct_ok_inv MakeDirection ActivationFuncs hardware_concurrency info k hk
    rw [hclip, GetAttrOrDefaultFloat_of_some info _ _ c hc] at hgt
    have := ((gt_zero_iff c).1 hgt).2
    omega
  · intro k hk
    obtain ⟨d, lbr, hs, -, -, -, -, -, -, -, hgt, -, -, -, -, -⟩ :=
      construct_ok_inv MakeDirection ActivationFuncs hardware_concurrency info k hk
    exact ⟨hgt, (gt_zero_iff _).1 hgt⟩

/-- C4 at concrete attribute sets: clip = -0.0f fails, and the bidirectional kernel
stores the positive clip 1.0f. -/
theorem C4_clip_positive_witness :
    (∃ f, constructSpec 4 (mkInfo (some "forward") (some 0) (some 3) none none none
      (some ⟨true, 0, 0⟩)) = Except.error f) ∧
    Float32.gt bidirectionalKernel.clip_ Float32.zero = true :=
  ⟨(C4_clip_positive MakeDirection (ActivationFuncs listedActivations) 4
      (mkInfo (some "forward") (some 0) (some 3) none none none (some ⟨true, 0, 0⟩))).1
      ⟨true, 0, 0⟩ rfl (by decide),
   ((C4_clip_positive MakeDirection (ActivationFuncs listedActivations) 4
      bidirectionalInfo).2 bidirectionalKernel rfl).1⟩

/-- C5, as the code contradicts it: linear_before_reset = 2 is accepted and stored. -/
theorem C5_counterexample :
    ∃ k, constructSpec 4 (mkInfo (some "forward") (some 2) (some 3) none none none none)
        = Except.ok k ∧
      k.linear_before_reset_ = 2 ∧ k.linear_before_reset_ ≠ 0 ∧ k.linear_before_reset_ ≠ 1 :=
  ⟨⟨Direction.kForward, 1, 3, Float32.max, 2,
      [⟨"sigmoid", none, none⟩, ⟨"tanh", none, none⟩], ⟨4⟩⟩, rfl, rfl, by decide, by decide⟩

/-- C5, amended: the constructor does not restrict linear_before_reset to 0 and 1. It
fails when the value is outside the signed 32-bit range; a constructed kernel stores the
attribute value itself; and an attribute set that is accepted stays accepted when its
linear_before_reset is replaced by any signed 32-bit value (2 or -1, say), which is then
the stored one. -/
theorem C5_linear_before_reset_stored {α : Type} (MakeDirection : String → Option Direction)
    (ActivationFuncs : List String → List Float32 → List Float32 → Option α)
    (hardware_concurrency : Nat) (info : OpKernelInfo) :
    (∀ v, info.GetAttrInt64 "linear_before_reset" = some v →
      (v < -2147483648 ∨ 2147483648 ≤ v) →
      ∃ f, DeepCpuGruOp.construct MakeDirection ActivationFuncs hardware_concurrency info
        = Except.error f) ∧
    (∀ k, DeepCpuGruOp.construct MakeDirection ActivationFuncs hardware_concurrency info
        = Except.ok k →
      info.GetAttrInt64 "linear_before_reset" = some k.linear_before_reset_ ∧
      -2147483648 ≤ k.linear_before_reset_ ∧ k.linear_before_reset_ < 2147483648 ∧
      ∀ v, -2147483648 ≤ v → v < 2147483648 →
        DeepCpuGruOp.construct MakeDirection ActivationFuncs hardware_concurrency
          (withLinearBeforeReset info v) = Except.ok { k with linear_before_reset_ := v }) := by
  constructor
  · intro v hv hout
    apply fails_of_not_ok
    intro k hk
    obtain ⟨d, lbr, hs, -, hlbr, hnar, -, -, -, -, -, -, -, -, -, -⟩ :=
      construct_ok_inv MakeDirection ActivationFuncs hardware_concurrency info k hk
    rw [hv] at hlbr
    cases hlbr
    have := (narrow_eq_some v k.linear_before_reset_).1 hnar
    omega
  · intro k hk
    obtain ⟨d, lbr, hs, hd, hlbr, hnar, hhs, hpos, hnar2, hclip, hgt, hmd, hnd, hcnt, hfs, http⟩ :=
      construct_ok_inv MakeDirection ActivationFuncs hardware_concurrency info k hk
    obtain ⟨e1, l1, l2⟩ := (narrow_eq_some lbr k.linear_before_reset_).1 hnar
    obtain ⟨e2, -, l4⟩ := (narrow_eq_some hs k.hidden_size_).1 hnar2
    refine ⟨by rw [hlbr, e1], by omega, by omega, fun v hv1 hv2 => ?_⟩
    have hne : ¬ ("hidden_size" = "linear_before_reset") := by decide
    have := construct_ok_of MakeDirection ActivationFuncs hardware_concurrency
      (withLinearBeforeReset info v) d v hs k.direction_ k.activation_funcs_ hd
      (by simp [withLinearBeforeReset]) hv1 hv2
      (by simp only [withLinearBeforeReset, if_neg hne]; exact hhs) hpos l4
      (by rw [hclip] at hgt; exact hgt) hmd
      (by rw [← hnd]; exact hcnt) (by rw [← hnd]; exact hfs)
    have c1 : (withLinearBeforeReset info v).GetAttrOrDefaultFloat "clip" Float32.max
        = info.GetAttrOrDefaultFloat "clip" Float32.max := rfl
    rw [this, c1, ← hclip, ← hnd, ← e2, ← http]

/-- C5 amended, at concrete attribute sets: 2^31 fails, and the forward attribute set
with linear_before_reset replaced by -1 constructs a kernel storing -1. -/
theorem C5_linear_before_reset_stored_witness :
    (∃ f, constructSpec 4 (mkInfo (some "forward") (some 2147483648) (some 3) none none none
      none) = Except.error f) ∧
    constructSpec 4 (withLinearBeforeReset forwardInfo (-1))
      = Except.ok { forwardKernel with linear_before_reset_ := -1 } :=
  ⟨(C5_linear_before_reset_stored MakeDirection (ActivationFuncs listedActivations) 4
      (mkInfo (some "forward") (some 2147483648) (some 3) none none none none)).1
      2147483648 rfl (Or.inr (by decide)),
   ((C5_linear_before_reset_stored MakeDirection (ActivationFuncs listedActivations) 4
      forwardInfo).2 forwardKernel rfl).2.2.2 (-1) (by decide) (by decide)⟩

/-- C6: when one of the required attributes direction, linear_before_reset or hidden_size
is absent, construction fails, whatever the other attributes are. -/
theorem C6_required_attributes {α : Type} (MakeDirection : String → Option Direction)
    (ActivationFuncs : List String → List Float32 → List Float32 → Option α)
    (hardware_concurrency : Nat) (info : OpKernelInfo)
    (h : info.GetAttrString "direction" = none ∨
      info.GetAttrInt64 "linear_before_reset" = none ∨
      info.GetAttrInt64 "hidden_size" = none) :
    ∃ f, DeepCpuGruOp.construct MakeDirection ActivationFuncs hardware_concurrency info
      = Except.error f := by
  apply fails_of_not_ok
  intro k hk
  obtain ⟨d, lbr, hs, hd, hlbr, -, hhs, -, -, -, -, -, -, -, -, -⟩ :=
    construct_ok_inv MakeDirection ActivationFuncs hardware_concurrency info k hk
  rcases h with h | h | h
  · rw [h] at hd
    cases hd
  · rw [h] at hlbr
    cases hlbr
  · rw [h] at hhs
    cases hhs

/-- C6 at a concrete attribute set: everything valid, but hidden_size is absent. -/
theorem C6_required_attributes_witness :
    (mkInfo (some "forward") (some 0) none none none none none).GetAttrInt64 "hidden_size"
      = none ∧
    ∃ f, constructSpec 4 (mkInfo (some "forward") (some 0) none none none none none)
      = Except.error f :=
  ⟨rfl, C6_required_attributes MakeDirection (ActivationFuncs listedActivations) 4
    (mkInfo (some "forward") (some 0) none none none none none) (Or.inr (Or.inr rfl))⟩

/-- C7: when the clip attribute is omitted, the constructor never throws from its clip
check, and a constructed kernel stores the largest finite single-precision value; clamping
to the interval of that clip_ returns every finite single-precision value unchanged. -/
theorem C7_clip_default {α : Type} (MakeDirection : String → Option Direction)
    (ActivationFuncs : List String → List Float32 → List Float32 → Option α)
    (hardware_concurrency : Nat) (info : OpKernelInfo)
    (h : info.GetAttrFloat "clip" = none) :
    DeepCpuGruOp.construct MakeDirection ActivationFuncs hardware_concurrency info
      ≠ Except.error Failure.clip_positive ∧
    (∀ k, DeepCpuGruOp.construct MakeDirection ActivationFuncs hardware_concurrency info
        = Except.ok k →
      k.clip_ = Float32.max ∧ ∀ v : Float32, v.isFinite = true → clip k.clip_ v = v) ∧
    Float32.max.isFinite = true ∧
    (∀ v : Float32, v.isFinite = true → v.scaled ≤ Float32.max.scaled) := by
  have hdef := GetAttrOrDefaultFloat_of_none info "clip" Float32.max h
  refine ⟨?_, ?_, rfl, ?_⟩
  · intro herr
    unfold DeepCpuGruOp.construct at herr
    have hgt : Float32.gt Float32.max Float32.zero = true := rfl
    simp only [bind_error, orThrow_error, ENFORCE_error, hdef, hgt, reduceCtorEq, and_false,
      false_and, exists_false, or_false, false_or, exists_const, pure, Except.pure] at herr
  · intro k hk
    obtain ⟨d, lbr, hs, -, -, -, -, -, -, hclip, -, -, -, -, -, -⟩ :=
      construct_ok_inv MakeDirection ActivationFuncs hardware_concurrency info k hk
    rw [hdef] at hclip
    refine ⟨hclip, fun v hv => ?_⟩
    rw [hclip]
    exact clip_max_eq v hv
  · intro v hv
    have hle := Float32.magnitude_le_max v hv
    rw [Float32.scaled_max]
    unfold Float32.scaled
    split <;> omega

/-- C7 at the forward attribute set, which has no clip: the kernel stores the largest
finite value and clamping leaves the finite value 1.0f unchanged. -/
theorem C7_clip_default_witness :
    forwardInfo.GetAttrFloat "clip" = none ∧
    constructSpec 4 forwardInfo = Except.ok forwardKernel ∧
    constructSpec 4 forwardInfo ≠ Except.error Failure.clip_positive ∧
    forwardKernel.clip_ = Float32.max ∧
    clip forwardKernel.clip_ ⟨false, 127, 0⟩ = ⟨false, 127, 0⟩ :=
  ⟨rfl, rfl,
   (C7_clip_default MakeDirection (ActivationFuncs listedActivations) 4 forwardInfo rfl).1,
   ((C7_clip_default MakeDirection (ActivationFuncs listedActivations) 4 forwardInfo rfl).2.1
      forwardKernel rfl).1,
   ((C7_clip_default MakeDirection (ActivationFuncs listedActivations) 4 forwardInfo rfl).2.1
      forwardKernel rfl).2 ⟨false, 127, 0⟩ rfl⟩

/-- C8: the constructor resolves the direction string through MakeDirection and stores
exactly its result in direction_; when the resolution fails construction fails, so a
direction string other than forward, reverse and bidirectional makes construction fail. -/
theorem C8_direction_resolved {α : Type}
    (ActivationFuncs : List String → List Float32 → List Float32 → Option α)
    (hardware_concurrency : Nat) (info : OpKernelInfo) (direction : String)
    (h : info.GetAttrString "direction" = some direction) :
    (direction ≠ "forward" → direction ≠ "reverse" → direction ≠ "bidirectional" →
      ∃ f, DeepCpuGruOp.construct MakeDirection ActivationFuncs hardware_concurrency info
        = Except.error f) ∧
    (∀ resolve : String → Option Direction, resolve direction = none →
      ∃ f, DeepCpuGruOp.construct resolve ActivationFuncs hardware_concurrency info
        = Except.error f) ∧
    (∀ (resolve : String → Option Direction) (k : DeepCpuGruOp α),
      DeepCpuGruOp.construct resolve ActivationFuncs hardware_concurrency info = Except.ok k →
      resolve direction = some k.direction_) := by
  have stored : ∀ (resolve : String → Option Direction) (k : DeepCpuGruOp α),
      DeepCpuGruOp.construct resolve ActivationFuncs hardware_concurrency info = Except.ok k →
      resolve direction = some k.direction_ := by
    intro resolve k hk
    obtain ⟨d, lbr, hs, hd, -, -, -, -, -, -, -, hmd, -, -, -, -⟩ :=
      construct_ok_inv resolve ActivationFuncs hardware_concurrency info k hk
    rw [h] at hd
    cases hd
    exact hmd
  have failing : ∀ resolve : String → Option Direction, resolve direction = none →
      ∃ f, DeepCpuGruOp.construct resolve ActivationFuncs hardware_concurrency info
        = Except.error f := by
    intro resolve hnone
    apply fails_of_not_ok
    intro k hk
    have := stored resolve k hk
    rw [hnone] at this
    cases this
  exact ⟨fun h1 h2 h3 => failing MakeDirection (MakeDirection_eq_none direction h1 h2 h3),
    failing, stored⟩

/-- C8 at concrete attribute sets: the direction string "sideways" fails, and the
direction stored in the forward kernel is the one MakeDirection returns. -/
theorem C8_direction_resolved_witness :
    (mkInfo (some "sideways") (some 0) (some 3) none none none none).GetAttrString "direction"
      = some "sideways" ∧
    (∃ f, constructSpec 4 (mkInfo (some "sideways") (some 0) (some 3) none none none none)
      = Except.error f) ∧
    MakeDirection "forward" = some forwardKernel.direction_ :=
  ⟨rfl,
   (C8_direction_resolved (ActivationFuncs listedActivations) 4
      (mkInfo (some "sideways") (some 0) (some 3) none none none none) "sideways" rfl).1
      (by decide) (by decide) (by decide),
   (C8_direction_resolved (ActivationFuncs listedActivations) 4 forwardInfo "forward"
      rfl).2.2 MakeDirection forwardKernel rfl⟩

/-- C9: the activation_funcs_ of a constructed kernel is the result of the one call of
ActivationFuncs on the whole final name list with the alpha and beta lists, so when that
resolution fails there is no kernel; under the resolution the spec describes, a supplied
list holding an unrecognized name makes construction fail. -/
theorem C9_activation_resolution {α : Type} (MakeDirection : String → Option Direction)
    (hardware_concurrency : Nat) (info : OpKernelInfo) :
    (∀ (resolveAll : List String → List Float32 → List Float32 → Option α)
        (k : DeepCpuGruOp α),
      DeepCpuGruOp.construct MakeDirection resolveAll hardware_concurrency info = Except.ok k →
      resolveAll
        (fillDefaultActivations k.num_directions_ (info.GetAttrsOrDefaultString "activations"))
        (info.GetAttrsOrDefaultFloat "activation_alpha")
        (info.GetAttrsOrDefaultFloat "activation_beta") = some k.activation_funcs_) ∧
    (∀ (resolveAll : List String → List Float32 → List Float32 → Option α)
        (direction : String) (dir : Direction),
      info.GetAttrString "direction" = some direction → MakeDirection direction = some dir →
      resolveAll
        (fillDefaultActivations (if dir = Direction.kBidirectional then 2 else 1)
          (info.GetAttrsOrDefaultString "activations"))
        (info.GetAttrsOrDefaultFloat "activation_alpha")
        (info.GetAttrsOrDefaultFloat "activation_beta") = none →
      ∃ f, DeepCpuGruOp.construct MakeDirection resolveAll hardware_concurrency info
        = Except.error f) ∧
    (∀ (recognized : String → Bool) (names : List String),
      info.GetAttrsString "activations" = some names →
      (∃ n ∈ names, recognized n = false) →
      ∃ f, DeepCpuGruOp.construct MakeDirection (ActivationFuncs recognized)
        hardware_concurrency info = Except.error f) := by
  have stored : ∀ (β : Type) (resolveAll : List String → List Float32 → List Float32 → Option β)
      (k : DeepCpuGruOp β),
      DeepCpuGruOp.construct MakeDirection resolveAll hardware_concurrency info = Except.ok k →
      resolveAll
        (fillDefaultActivations k.num_directions_ (info.GetAttrsOrDefaultString "activations"))
        (info.GetAttrsOrDefaultFloat "activation_alpha")
        (info.GetAttrsOrDefaultFloat "activation_beta") = some k.activation_funcs_ := by
    intro β resolveAll k hk
    obtain ⟨d, lbr, hs, -, -, -, -, -, -, -, -, -, -, -, hfs, -⟩ :=
      construct_ok_inv MakeDirection resolveAll hardware_concurrency info k hk
    exact hfs
  refine ⟨stored α, ?_, ?_⟩
  · intro resolveAll direction dir hdir hmk hnone
    apply fails_of_not_ok
    intro k hk
    have := stored α resolveAll k hk
    obtain ⟨d, lbr, hs, hd, -, -, -, -, -, -, -, hmd, hnd, -, -, -⟩ :=
      construct_ok_inv MakeDirection resolveAll hardware_concurrency info k hk
    rw [hdir] at hd
    cases hd
    rw [hmk] at hmd
    cases hmd
    rw [hnd, hnone] at this
    cases this
  · intro recognized names hnames hex
    apply fails_of_not_ok
    intro k hk
    have := stored _ (ActivationFuncs recognized) k hk
    have hne : names ≠ [] := by
      obtain ⟨n, hn, -⟩ := hex
      intro hnil
      rw [hnil] at hn
      exact absurd hn (List.not_mem_nil n)
    rw [GetAttrsOrDefaultString_of_some info _ names hnames,
      fillDefaultActivations_of_ne_nil _ names hne,
      ActivationFuncs_eq_none recognized names hex] at this
    cases this

/-- C9 at concrete attribute sets: the unlisted name "gelu" among the supplied names makes
construction fail, and the forward kernel holds the resolution of its final list. -/
theorem C9_activation_resolution_witness :
    (∃ f, constructSpec 4 (mkInfo (some "forward") (some 0) (some 3)
      (some ["sigmoid", "gelu"]) none none none) = Except.error f) ∧
    ActivationFuncs listedActivations ["sigmoid", "tanh"] [] []
      = some forwardKernel.activation_funcs_ :=
  ⟨(@C9_activation_resolution (List ActivationFunc) MakeDirection 4
      (mkInfo (some "forward") (some 0) (some 3) (some ["sigmoid", "gelu"]) none none
        none)).2.2 listedActivations ["sigmoid", "gelu"] rfl ⟨"gelu", by decide, by decide⟩,
   (@C9_activation_resolution (List ActivationFunc) MakeDirection 4 forwardInfo).1
      (ActivationFuncs listedActivations) forwardKernel rfl⟩

/-- C11: when the activations attribute is omitted or empty, the constructor's final name
list is [sigmoid, tanh] for one direction and [sigmoid, tanh, sigmoid, tanh] for two; a
constructed kernel holds the resolution by ActivationFuncs of exactly that list for its
direction, whose length is 2 × num_directions_; the count check never throws; and the
result of construction is the one obtained from the same attribute set with those names
supplied explicitly. -/
theorem C11_default_activations {α : Type} (MakeDirection : String → Option Direction)
    (ActivationFuncs : List String → List Float32 → List Float32 → Option α)
    (hardware_concurrency : Nat) (info : OpKernelInfo)
    (h : info.GetAttrsString "activations" = none ∨
      info.GetAttrsString "activations" = some []) :
    fillDefaultActivations 1 (info.GetAttrsOrDefaultString "activations")
      = ["sigmoid", "tanh"] ∧
    fillDefaultActivations 2 (info.GetAttrsOrDefaultString "activations")
      = ["sigmoid", "tanh", "sigmoid", "tanh"] ∧
    (∀ k, DeepCpuGruOp.construct MakeDirection ActivationFuncs hardware_concurrency info
        = Except.ok k →
      fillDefaultActivations k.num_directions_ (info.GetAttrsOrDefaultString "activations")
        = (if k.direction_ = Direction.kBidirectional
            then ["sigmoid", "tanh", "sigmoid", "tanh"] else ["sigmoid", "tanh"]) ∧
      ActivationFuncs
        (if k.direction_ = Direction.kBidirectional
          then ["sigmoid", "tanh", "sigmoid", "tanh"] else ["sigmoid", "tanh"])
        (info.GetAttrsOrDefaultFloat "activation_alpha")
        (info.GetAttrsOrDefaultFloat "activation_beta") = some k.activation_funcs_ ∧
      (((if k.direction_ = Direction.kBidirectional
          then ["sigmoid", "tanh", "sigmoid", "tanh"] else ["sigmoid", "tanh"]).length : Int)
        = 2 * k.num_directions_)) ∧
    DeepCpuGruOp.construct MakeDirection ActivationFuncs hardware_concurrency info
      ≠ Except.error Failure.activation_count ∧
    (∀ direction dir, info.GetAttrString "direction" = some direction →
      MakeDirection direction = some dir →
      DeepCpuGruOp.construct MakeDirection ActivationFuncs hardware_concurrency info
        = DeepCpuGruOp.construct MakeDirection ActivationFuncs hardware_concurrency
            (withActivations info
              (if dir = Direction.kBidirectional
                then ["sigmoid", "tanh", "sigmoid", "tanh"] else ["sigmoid", "tanh"]))) := by
  have hnil := GetAttrsOrDefaultString_of_omitted info "activations" h
  refine ⟨by rw [hnil]; rfl, by rw [hnil]; rfl, ?_, ?_, ?_⟩
  · intro k hk
    obtain ⟨d, lbr, hs, -, -, -, -, -, -, -, -, -, hnd, -, hfs, -⟩ :=
      construct_ok_inv MakeDirection ActivationFuncs hardware_concurrency info k hk
    have hfinal : fillDefaultActivations k.num_directions_
        (info.GetAttrsOrDefaultString "activations")
        = (if k.direction_ = Direction.kBidirectional
            then ["sigmoid", "tanh", "sigmoid", "tanh"] else ["sigmoid", "tanh"]) := by
      rw [hnil, hnd]
      exact fillDefaultActivations_nil k.direction_
    refine ⟨hfinal, ?_, ?_⟩
    · rw [← hfinal]
      exact hfs
    · rw [hnd]
      by_cases hb : k.direction_ = Direction.kBidirectional
      · rw [if_pos hb, if_pos hb]
        rfl
      · rw [if_neg hb, if_neg hb]
        rfl
  · intro herr
    unfold DeepCpuGruOp.construct at herr
    simp only [bind_error, orThrow_error, ENFORCE_error, hnil, activationCountOk_default,
      reduceCtorEq, and_false, false_and, exists_false, or_false, false_or, exists_const,
      pure, Except.pure] at herr
  · intro direction dir hd hmd
    have hd2 : (withActivations info
        (if dir = Direction.kBidirectional
          then ["sigmoid", "tanh", "sigmoid", "tanh"] else ["sigmoid", "tanh"])).GetAttrString
        "direction" = some direction := hd
    have hfill : fillDefaultActivations (if dir = Direction.kBidirectional then 2 else 1)
        (if dir = Direction.kBidirectional
          then ["sigmoid", "tanh", "sigmoid", "tanh"] else ["sigmoid", "tanh"])
        = (if dir = Direction.kBidirectional
          then ["sigmoid", "tanh", "sigmoid", "tanh"] else ["sigmoid", "tanh"]) := by
      cases dir <;> rfl
    unfold DeepCpuGruOp.construct
    simp only [hd, hd2, hmd, hnil, GetAttrsOrDefaultString_withActivations, orThrow, bind,
      Except.bind, fillDefaultActivations_nil, hfill]
    rfl

/-- C11 at the forward attribute set, which has no activations attribute, and at a
bidirectional one with an empty list: the forward kernel holds the resolution of
[sigmoid, tanh], the bidirectional one that of [sigmoid, tanh, sigmoid, tanh], and each
construction gives what the explicit names give. -/
theorem C11_default_activations_witness :
    forwardInfo.GetAttrsString "activations" = none ∧
    constructSpec 4 forwardInfo = Except.ok forwardKernel ∧
    fillDefaultActivations 1 (forwardInfo.GetAttrsOrDefaultString "activations")
      = ["sigmoid", "tanh"] ∧
    ActivationFuncs listedActivations ["sigmoid", "tanh"] [] []
      = some forwardKernel.activation_funcs_ ∧
    constructSpec 4 forwardInfo
      = constructSpec 4 (withActivations forwardInfo ["sigmoid", "tanh"]) ∧
    bidirectionalDefaultInfo.GetAttrsString "activations" = some [] ∧
    constructSpec 4 bidirectionalDefaultInfo = Except.ok bidirectionalDefaultKernel ∧
    ActivationFuncs listedActivations ["sigmoid", "tanh", "sigmoid", "tanh"] [] []
      = some bidirectionalDefaultKernel.activation_funcs_ ∧
    ((["sigmoid", "tanh", "sigmoid", "tanh"].length : Int)
      = 2 * bidirectionalDefaultKernel.num_directions_) ∧
    constructSpec 4 bidirectionalDefaultInfo
      = constructSpec 4 (withActivations bidirectionalDefaultInfo
          ["sigmoid", "tanh", "sigmoid", "tanh"]) :=
  ⟨rfl, rfl,
   (C11_default_activations MakeDirection (ActivationFuncs listedActivations) 4 forwardInfo
      (Or.inl rfl)).1,
   ((C11_default_activations MakeDirection (ActivationFuncs listedActivations) 4 forwardInfo
      (Or.inl rfl)).2.2.1 forwardKernel rfl).2.1,
   (C11_default_activations MakeDirection (ActivationFuncs listedActivations) 4 forwardInfo
      (Or.inl rfl)).2.2.2.2 "forward" Direction.kForward rfl rfl,
   rfl, rfl,
   ((C11_default_activations MakeDirection (ActivationFuncs listedActivations) 4
      bidirectionalDefaultInfo (Or.inr rfl)).2.2.1 bidirectionalDefaultKernel rfl).2.1,
   ((C11_default_activations MakeDirection (ActivationFuncs listedActivations) 4
      bidirectionalDefaultInfo (Or.inr rfl)).2.2.1 bidirectionalDefaultKernel rfl).2.2,
   (C11_default_activations MakeDirection (ActivationFuncs listedActivations) 4
      bidirectionalDefaultInfo (Or.inr rfl)).2.2.2.2 "bidirectional" Direction.kBidirectional
      rfl rfl⟩

/-- C12: a constructed kernel stores the 64-bit hidden_size and linear_before_reset
attribute values themselves, and a value of either attribute outside the signed 32-bit
range makes construction fail, also where the wrapped value would pass the checks. -/
theorem C12_no_wrap_around {α : Type} (MakeDirection : String → Option Direction)
    (ActivationFuncs : List String → List Float32 → List Float32 → Option α)
    (hardware_concurrency : Nat) (info : OpKernelInfo) :
    (∀ k, DeepCpuGruOp.construct MakeDirection ActivationFuncs hardware_concurrency info
        = Except.ok k →
      info.GetAttrInt64 "hidden_size" = some k.hidden_size_ ∧
      info.GetAttrInt64 "linear_before_reset" = some k.linear_before_reset_) ∧
    (∀ v, info.GetAttrInt64 "hidden_size" = some v →
      (v < -2147483648 ∨ 2147483648 ≤ v) →
      ∃ f, DeepCpuGruOp.construct MakeDirection ActivationFuncs hardware_concurrency info
        = Except.error f) ∧
    (∀ v, info.GetAttrInt64 "linear_before_reset" = some v →
      (v < -2147483648 ∨ 2147483648 ≤ v) →
      ∃ f, DeepCpuGruOp.construct MakeDirection ActivationFuncs hardware_concurrency info
        = Except.error f) := by
  have stored : ∀ k,
      DeepCpuGruOp.construct MakeDirection ActivationFuncs hardware_concurrency info
        = Except.ok k →
      (info.GetAttrInt64 "hidden_size" = some k.hidden_size_ ∧
        -2147483648 ≤ k.hidden_size_ ∧ k.hidden_size_ < 2147483648) ∧
      (info.GetAttrInt64 "linear_before_reset" = some k.linear_before_reset_ ∧
        -2147483648 ≤ k.linear_before_reset_ ∧ k.linear_before_reset_ < 2147483648) := by
    intro k hk
    obtain ⟨d, lbr, hs, -, hlbr, hnar, hhs, -, hnar2, -, -, -, -, -, -, -⟩ :=
      construct_ok_inv MakeDirection ActivationFuncs hardware_concurrency info k hk
    obtain ⟨e1, l1, l2⟩ := (narrow_eq_some lbr k.linear_before_reset_).1 hnar
    obtain ⟨e2, l3, l4⟩ := (narrow_eq_some hs k.hidden_size_).1 hnar2
    rw [hhs, hlbr, e1, e2]
    exact ⟨⟨rfl, l3, l4⟩, ⟨rfl, l1, l2⟩⟩
  refine ⟨fun k hk => ⟨(stored k hk).1.1, (stored k hk).2.1⟩, ?_, ?_⟩
  · intro v hv hout
    apply fails_of_not_ok
    intro k hk
    obtain ⟨⟨e, l1, l2⟩, -⟩ := stored k hk
    rw [hv] at e
    cases e
    omega
  · intro v hv hout
    apply fails_of_not_ok
    intro k hk
    obtain ⟨-, ⟨e, l1, l2⟩⟩ := stored k hk
    rw [hv] at e
    cases e
    omega

/-- C12 at concrete attribute sets: hidden_size = 2^31 and hidden_size = 2^32 + 1 make
construction fail, although the wrapped value of 2^32 + 1 is the positive 1; the
bidirectional kernel stores its attribute values 8 and 1. -/
theorem C12_no_wrap_around_witness :
    (∃ f, constructSpec 4 (mkInfo (some "forward") (some 0) (some 2147483648) none none none
      none) = Except.error f) ∧
    narrow_cast 4294967297 = 1 ∧
    (∃ f, constructSpec 4 (mkInfo (some "forward") (some 0) (some 4294967297) none none none
      none) = Except.error f) ∧
    bidirectionalInfo.GetAttrInt64 "hidden_size" = some bidirectionalKernel.hidden_size_ ∧
    bidirectionalInfo.GetAttrInt64 "linear_before_reset"
      = some bidirectionalKernel.linear_before_reset_ :=
  ⟨(C12_no_wrap_around MakeDirection (ActivationFuncs listedActivations) 4
      (mkInfo (some "forward") (some 0) (some 2147483648) none none none none)).2.1
      2147483648 rfl (Or.inr (by decide)),
   by decide,
   (C12_no_wrap_around MakeDirection (ActivationFuncs listedActivations) 4
      (mkInfo (some "forward") (some 0) (some 4294967297) none none none none)).2.1
      4294967297 rfl (Or.inr (by decide)),
   ((C12_no_wrap_around MakeDirection (ActivationFuncs listedActivations) 4
      bidirectionalInfo).1 bidirectionalKernel rfl).1,
   ((C12_no_wrap_around MakeDirection (ActivationFuncs listedActivations) 4
      bidirectionalInfo).1 bidirectionalKernel rfl).2⟩

end onnxruntime
